import Mathlib

/-!
CellTrail session client (`frontend/api.js`).

A shallow embedding of the three exported operations `login`, `me` and `logout`.

* `localStorage` is passed explicitly as a `Storage` value and returned in the outcome.
* `fetch` is a parameter (`Transport`); every call to it is recorded, in order, in the
  outcome's `requests`.
* A thrown JavaScript value is an `Except.error`; the store and the request log are kept
  on both the normal and the exceptional path.
* Each operation runs without interleaving with other code of the page: the suspension
  points of `await` are not modelled.
-/

namespace CellTrail

/-! ## JavaScript values -/

/-- A JavaScript Number, carried by the text `Number::toString` gives for it. The program
never computes with a payload number; the only operation it can apply to one is the string
coercion of `localStorage.setItem`. -/
structure JsNumber where
  rendering : String
  deriving DecidableEq, Repr

/-- A value produced by `Response.json()`, i.e. by `JSON.parse`. Object members are kept
in order; a parsed object has no two members of the same name. -/
inductive Json where
  | null
  | bool (b : Bool)
  | num (n : JsNumber)
  | str (s : String)
  | arr (items : List Json)
  | obj (members : List (String × Json))

/-- A thrown value: an `Error` object, with the `name` of its class and its `message`. -/
structure JsError where
  name : String
  message : String
  deriving DecidableEq, Repr

/-- The value of the expression `new Error(message)`. -/
def newError (message : String) : JsError :=
  { name := "Error", message := message }

/-- The engine's `TypeError` for reading a property of `null` (message text as in V8). -/
def nullPropertyError : JsError :=
  { name := "TypeError", message := "Cannot read properties of null (reading \x27access_token\x27)" }

/-- Own member lookup in a parsed object. -/
def lookupMember (key : String) : List (String × Json) → Option Json
  | [] => none
  | (k, v) :: rest => if k = key then some v else lookupMember key rest

/-- The expression `data.access_token`. `none` stands for `undefined`. Reading a property
of `null` throws; an object yields its member or `undefined`; strings, numbers, booleans
and arrays have no property of that name (neither own nor on their prototypes). -/
def accessTokenOf : Json → Except JsError (Option Json)
  | .null => .error nullPropertyError
  | .obj members => .ok (lookupMember "access_token" members)
  | _ => .ok none

/-- The engine's `TypeError` when `ToPrimitive` finds no callable `toString` or `valueOf`
giving a primitive (message text as in V8). -/
def notPrimitiveError : JsError :=
  { name := "TypeError", message := "Cannot convert object to primitive value" }

mutual
/-- The abstract operation `ToString` on a parsed value. A parsed object with an own member
named `toString` shadows `Object.prototype.toString` with a value that is not callable, and
`valueOf` then gives no primitive, so the operation throws; every other parsed object gives
`[object Object]`. An array goes through `Array.prototype.join`. -/
def Json.toJsString : Json → Except JsError String
  | .null => .ok "null"
  | .bool true => .ok "true"
  | .bool false => .ok "false"
  | .num n => .ok n.rendering
  | .str s => .ok s
  | .arr items => Json.joinItems items
  | .obj members =>
    match lookupMember "toString" members with
    | some _ => .error notPrimitiveError
    | none => .ok "[object Object]"
/-- The method `Array.prototype.join` with the default separator: `null` elements give
the empty text, the others are converted from left to right by `ToString`. -/
def Json.joinItems : List Json → Except JsError String
  | [] => .ok ""
  | [.null] => .ok ""
  | [x] => Json.toJsString x
  | .null :: rest =>
    match Json.joinItems rest with
    | .error e => .error e
    | .ok tail => .ok ("," ++ tail)
  | x :: rest =>
    match Json.toJsString x with
    | .error e => .error e
    | .ok head =>
      match Json.joinItems rest with
      | .error e => .error e
      | .ok tail => .ok (head ++ "," ++ tail)
end

/-- The string coercion `localStorage.setItem` applies to its value argument. -/
def coerceToString : Option Json → Except JsError String
  | none => .ok "undefined"
  | some v => v.toJsString

/-- The rendering of `res.status` inside a template literal: the status is an integer
(an unsigned short in the Fetch interface), so it is its decimal numeral. -/
def statusText (status : Nat) : String :=
  toString status

/-! ## The persisted store -/

/-- The `localStorage` area of the origin: its key/value entries, in order. -/
structure Storage where
  entries : List (String × String)
  deriving DecidableEq, Repr

/-- First value recorded under `key` in a list of entries. -/
def findEntry (key : String) : List (String × String) → Option String
  | [] => none
  | (k, v) :: rest => if k = key then some v else findEntry key rest

/-- Replace the value under `key`, or append a new entry when there is none. -/
def putEntry (key value : String) : List (String × String) → List (String × String)
  | [] => [(key, value)]
  | (k, v) :: rest =>
    if k = key then (k, value) :: rest else (k, v) :: putEntry key value rest

/-- Delete the entry under `key`, if there is one. -/
def dropEntry (key : String) : List (String × String) → List (String × String)
  | [] => []
  | (k, v) :: rest => if k = key then dropEntry key rest else (k, v) :: dropEntry key rest

/-- The call `localStorage.getItem(key)`; `none` stands for `null`. -/
def Storage.getItem (s : Storage) (key : String) : Option String :=
  findEntry key s.entries

/-- The call `localStorage.setItem(key, value)` with an already coerced value. -/
def Storage.setItem (s : Storage) (key value : String) : Storage :=
  { entries := putEntry key value s.entries }

/-- The call `localStorage.removeItem(key)`. -/
def Storage.removeItem (s : Storage) (key : String) : Storage :=
  { entries := dropEntry key s.entries }

/-! ## The transport -/

/-- A request body. The program only ever passes a `URLSearchParams` object, given here
by its name/value entries; `fetch` serialises it as `application/x-www-form-urlencoded`. -/
inductive Body where
  | urlSearchParams (entries : List (String × String))
  deriving DecidableEq, Repr

/-- The second argument of `fetch`; an absent `method` means the default, `GET`. -/
structure RequestInit where
  method : Option String
  headers : List (String × String)
  body : Option Body
  deriving DecidableEq, Repr

/-- One call `fetch(url, init)`. -/
structure Request where
  url : String
  init : RequestInit
  deriving DecidableEq, Repr

/-- What the program reads of a `Response`: `status`, and the settled results of the
body readers `text()` and `json()`. -/
structure Response where
  status : Nat
  text : Except JsError String
  json : Except JsError Json

/-- The getter `Response.ok`: the status is in the range 200 to 299. -/
def Response.ok (res : Response) : Bool :=
  decide (200 ≤ res.status) && decide (res.status ≤ 299)

/-- A stub transport: how `fetch` settles for a given request. -/
abbrev Transport := Request → Except JsError Response

/-- Result of running one operation: what it returned or threw, the store afterwards,
and the requests it issued. -/
structure Outcome (α : Type) where
  result : Except JsError α
  store : Storage
  requests : List Request

/-! ## The program -/

/-- The constant `API`. -/
def API : String := "https://celltrail-api.onrender.com"

/-- The request built by `login`. -/
def loginRequest (username password : String) : Request :=
  { url := API ++ "/api/auth/login",
    init :=
      { method := some "POST",
        headers := [("Content-Type", "application/x-www-form-urlencoded")],
        body := some (Body.urlSearchParams [("username", username), ("password", password)]) } }

/-- The error thrown by `login` on a response that is not ok. -/
def loginFailedError (status : Nat) (text : String) : JsError :=
  newError ("login failed: " ++ statusText status ++ " " ++ text)

/-- The function `login(username, password)`. -/
def login (fetch : Transport) (username password : String) (localStorage : Storage) :
    Outcome Json :=
  let req := loginRequest username password
  match fetch req with
  | .error e => { result := .error e, store := localStorage, requests := [req] }
  | .ok res =>
    if !res.ok then
      match res.text with
      | .error e => { result := .error e, store := localStorage, requests := [req] }
      | .ok text =>
        { result := .error (loginFailedError res.status text),
          store := localStorage, requests := [req] }
    else
      match res.json with
      | .error e => { result := .error e, store := localStorage, requests := [req] }
      | .ok data =>
        match accessTokenOf data with
        | .error e => { result := .error e, store := localStorage, requests := [req] }
        | .ok tok =>
          match coerceToString tok with
          | .error e => { result := .error e, store := localStorage, requests := [req] }
          | .ok value =>
            { result := .ok data,
              store := localStorage.setItem "token" value,
              requests := [req] }

/-- The request built by `me` for a stored token. -/
def meRequest (token : String) : Request :=
  { url := API ++ "/api/auth/me",
    init := { method := none, headers := [("Authorization", "Bearer " ++ token)], body := none } }

/-- The error thrown by the guard of `me`. -/
def noTokenError : JsError :=
  newError "no token, please login"

/-- The error thrown by `me` on a response that is not ok. -/
def authFailedError (status : Nat) (text : String) : JsError :=
  newError ("auth failed: " ++ statusText status ++ " " ++ text)

/-- The test `!token` on the result of `getItem`: `null` and the empty string are falsy. -/
def isFalsy : Option String → Bool
  | none => true
  | some s => decide (s = "")

/-- The substitution `${token}` of a template literal on the result of `getItem`. -/
def templateText : Option String → String
  | none => "null"
  | some s => s

/-- The function `me()`. -/
def me (fetch : Transport) (localStorage : Storage) : Outcome Json :=
  let token := localStorage.getItem "token"
  if isFalsy token then
    { result := .error noTokenError, store := localStorage, requests := [] }
  else
    let req := meRequest (templateText token)
    match fetch req with
    | .error e => { result := .error e, store := localStorage, requests := [req] }
    | .ok res =>
      if !res.ok then
        match res.text with
        | .error e => { result := .error e, store := localStorage, requests := [req] }
        | .ok text =>
          { result := .error (authFailedError res.status text),
            store := localStorage, requests := [req] }
      else
        { result := res.json, store := localStorage, requests := [req] }

/-- The function `logout()`. -/
def logout (localStorage : Storage) : Outcome Unit :=
  { result := .ok (), store := localStorage.removeItem "token", requests := [] }

/-- Text `part` occurs in `msg` as a contiguous run of characters. -/
def Occurs (part msg : String) : Prop :=
  part.data <:+: msg.data

instance (part msg : String) : Decidable (Occurs part msg) :=
  inferInstanceAs (Decidable (part.data <:+: msg.data))

/-! ## Concrete stores and stub transports -/

/-- The store with no entry. -/
def emptyStore : Storage :=
  { entries := [] }

/-- A store that already holds a token, next to an unrelated entry. -/
def staleStore : Storage :=
  { entries := [("theme", "dark"), ("token", "old")] }

/-- A store that holds the token issued by the stub API. -/
def aliceStore : Storage :=
  { entries := [("token", "abc123")] }

/-- A store whose `token` entry is the empty string. -/
def blankTokenStore : Storage :=
  { entries := [("token", "")] }

/-- Rejection of `json()` on a body that is not JSON text. -/
def notJsonError : JsError :=
  { name := "SyntaxError", message := "Unexpected token in JSON" }

/-- The login payload of the stub API. -/
def alicePayload : Json :=
  .obj [("access_token", .str "abc123"), ("token_type", .str "bearer")]

/-- The profile of the stub API. -/
def aliceProfile : Json :=
  .obj [("username", .str "alice")]

/-- A stub remote API: it accepts `alice` with password `pw1`, issuing the token `abc123`,
answers every other login with 401, serves the profile to the bearer of `abc123` and
answers every other request with 401. -/
def stubApi : Transport := fun req =>
  if req = loginRequest "alice" "pw1" then
    .ok { status := 200,
          text := .ok "\x7b\"access_token\":\"abc123\",\"token_type\":\"bearer\"\x7d",
          json := .ok alicePayload }
  else if req.url = API ++ "/api/auth/login" then
    .ok { status := 401, text := .ok "bad credentials", json := .error notJsonError }
  else if req = meRequest "abc123" then
    .ok { status := 200, text := .ok "\x7b\"username\":\"alice\"\x7d", json := .ok aliceProfile }
  else
    .ok { status := 401, text := .ok "invalid token", json := .error notJsonError }

/-- A stub that answers every request with status 200 and an object without an
`access_token` member. -/
def stubWithoutToken : Transport := fun _ =>
  .ok { status := 200, text := .ok "\x7b\"token_type\":\"bearer\"\x7d",
        json := .ok (.obj [("token_type", .str "bearer")]) }

/-- A stub that answers every request with status 200 and the JSON text `null`. -/
def stubNullPayload : Transport := fun _ =>
  .ok { status := 200, text := .ok "null", json := .ok .null }

/-- A stub that answers every request with status 200 and the profile. -/
def stubAlwaysProfile : Transport := fun _ =>
  .ok { status := 200, text := .ok "\x7b\"username\":\"alice\"\x7d", json := .ok aliceProfile }

/-- A stub that answers every request with status 401 and the body `expired`. -/
def stubAlways401 : Transport := fun _ =>
  .ok { status := 401, text := .ok "expired", json := .error notJsonError }

end CellTrail

namespace CellTrail

/-! ## Lemmas on the store -/

theorem findEntry_putEntry_same (key value : String) (l : List (String × String)) :
    findEntry key (putEntry key value l) = some value := by
  induction l with
  | nil => simp [putEntry, findEntry]
  | cons e rest ih =>
    obtain ⟨k, v⟩ := e
    by_cases h : k = key
    · simp [putEntry, findEntry, h]
    · simp [putEntry, findEntry, h, ih]

theorem findEntry_putEntry_other (key value other : String) (l : List (String × String))
    (hne : other ≠ key) : findEntry other (putEntry key value l) = findEntry other l := by
  induction l with
  | nil => simp [putEntry, findEntry, Ne.symm hne]
  | cons e rest ih =>
    obtain ⟨k, v⟩ := e
    by_cases h : k = key
    · subst h
      simp [putEntry, findEntry, Ne.symm hne]
    · by_cases h2 : k = other
      · subst h2
        simp [putEntry, findEntry, h]
      · simp [putEntry, findEntry, h, h2, ih]

theorem findEntry_dropEntry_same (key : String) (l : List (String × String)) :
    findEntry key (dropEntry key l) = none := by
  induction l with
  | nil => simp [dropEntry, findEntry]
  | cons e rest ih =>
    obtain ⟨k, v⟩ := e
    by_cases h : k = key
    · simp [dropEntry, h, ih]
    · simp [dropEntry, h, findEntry, ih]

theorem findEntry_dropEntry_other (key other : String) (l : List (String × String))
    (hne : other ≠ key) : findEntry other (dropEntry key l) = findEntry other l := by
  induction l with
  | nil => simp [dropEntry, findEntry]
  | cons e rest ih =>
    obtain ⟨k, v⟩ := e
    by_cases h : k = key
    · subst h
      simp [dropEntry, findEntry, Ne.symm hne, ih]
    · by_cases h2 : k = other
      · subst h2
        simp [dropEntry, h, findEntry]
      · simp [dropEntry, h, findEntry, h2, ih]

theorem dropEntry_absent (key : String) (l : List (String × String))
    (h : findEntry key l = none) : dropEntry key l = l := by
  induction l with
  | nil => simp [dropEntry]
  | cons e rest ih =>
    obtain ⟨k, v⟩ := e
    by_cases hk : k = key
    · simp [findEntry, hk] at h
    · simp [findEntry, hk] at h
      simp [dropEntry, hk, ih h]

theorem getItem_setItem_same (s : Storage) (key value : String) :
    (s.setItem key value).getItem key = some value := by
  simp [Storage.getItem, Storage.setItem, findEntry_putEntry_same]

theorem getItem_setItem_other (s : Storage) (key value other : String) (hne : other ≠ key) :
    (s.setItem key value).getItem other = s.getItem other := by
  simp [Storage.getItem, Storage.setItem, findEntry_putEntry_other _ _ _ _ hne]

theorem getItem_removeItem_same (s : Storage) (key : String) :
    (s.removeItem key).getItem key = none := by
  simp only [Storage.getItem, Storage.removeItem]
  exact findEntry_dropEntry_same key s.entries

theorem getItem_removeItem_other (s : Storage) (key other : String) (hne : other ≠ key) :
    (s.removeItem key).getItem other = s.getItem other := by
  simp only [Storage.getItem, Storage.removeItem]
  exact findEntry_dropEntry_other key other s.entries hne

theorem removeItem_absent (s : Storage) (key : String) (h : s.getItem key = none) :
    s.removeItem key = s := by
  obtain ⟨l⟩ := s
  simp only [Storage.removeItem, Storage.getItem] at *
  rw [dropEntry_absent key l h]

theorem removeItem_removeItem (s : Storage) (key : String) :
    (s.removeItem key).removeItem key = s.removeItem key :=
  removeItem_absent (s.removeItem key) key (getItem_removeItem_same s key)

/-! ## Lemmas on the operations -/

theorem ok_eq_true_iff (res : Response) :
    res.ok = true ↔ 200 ≤ res.status ∧ res.status ≤ 299 := by
  simp [Response.ok]

theorem occurs_mid (a part b : String) : Occurs part (a ++ part ++ b) := by
  refine ⟨a.data, b.data, ?_⟩
  simp [String.data_append]

theorem login_requests (fetch : Transport) (username password : String)
    (localStorage : Storage) :
    (login fetch username password localStorage).requests
      = [loginRequest username password] := by
  unfold login
  simp only []
  split
  · rfl
  · split
    · split <;> rfl
    · split
      · rfl
      · split
        · rfl
        · split <;> rfl

theorem login_of_ok (fetch : Transport) (username password : String) (localStorage : Storage)
    (res : Response) (data : Json) (tok : Option Json) (value : String)
    (hfetch : fetch (loginRequest username password) = .ok res)
    (h2xx : 200 ≤ res.status ∧ res.status ≤ 299)
    (hjson : res.json = .ok data)
    (htok : accessTokenOf data = .ok tok)
    (hvalue : coerceToString tok = .ok value) :
    login fetch username password localStorage
      = { result := .ok data,
          store := localStorage.setItem "token" value,
          requests := [loginRequest username password] } := by
  have hok : res.ok = true := (ok_eq_true_iff res).2 h2xx
  simp [login, hfetch, hok, hjson, htok, hvalue]

theorem login_of_coercion_error (fetch : Transport) (username password : String)
    (localStorage : Storage) (res : Response) (data : Json) (tok : Option Json) (e : JsError)
    (hfetch : fetch (loginRequest username password) = .ok res)
    (h2xx : 200 ≤ res.status ∧ res.status ≤ 299)
    (hjson : res.json = .ok data)
    (htok : accessTokenOf data = .ok tok)
    (hvalue : coerceToString tok = .error e) :
    login fetch username password localStorage
      = { result := .error e,
          store := localStorage,
          requests := [loginRequest username password] } := by
  have hok : res.ok = true := (ok_eq_true_iff res).2 h2xx
  simp [login, hfetch, hok, hjson, htok, hvalue]

theorem accessTokenOf_missing (data : Json) (hnotnull : data ≠ .null)
    (hmissing : ∀ members : List (String × Json),
      data = .obj members → lookupMember "access_token" members = none) :
    accessTokenOf data = .ok none := by
  cases data with
  | null => exact absurd rfl hnotnull
  | obj members => simp [accessTokenOf, hmissing members rfl]
  | bool b => rfl
  | num n => rfl
  | str s => rfl
  | arr items => rfl

theorem login_of_not_ok (fetch : Transport) (username password : String)
    (localStorage : Storage) (res : Response) (b : String)
    (hfetch : fetch (loginRequest username password) = .ok res)
    (hnot : ¬ (200 ≤ res.status ∧ res.status ≤ 299))
    (htext : res.text = .ok b) :
    login fetch username password localStorage
      = { result := .error (loginFailedError res.status b),
          store := localStorage,
          requests := [loginRequest username password] } := by
  have hok : res.ok = false := by
    cases h : res.ok
    · rfl
    · exact absurd ((ok_eq_true_iff res).1 h) hnot
  simp [login, hfetch, hok, htext]

theorem login_null_payload_throws (fetch : Transport) (username password : String)
    (localStorage : Storage) (res : Response)
    (hfetch : fetch (loginRequest username password) = .ok res)
    (h2xx : 200 ≤ res.status ∧ res.status ≤ 299)
    (hjson : res.json = .ok .null) :
    login fetch username password localStorage
      = { result := .error nullPropertyError,
          store := localStorage,
          requests := [loginRequest username password] } := by
  have hok : res.ok = true := (ok_eq_true_iff res).2 h2xx
  simp [login, hfetch, hok, hjson, accessTokenOf]

theorem me_of_falsy (fetch : Transport) (localStorage : Storage)
    (h : isFalsy (localStorage.getItem "token") = true) :
    me fetch localStorage
      = { result := .error noTokenError, store := localStorage, requests := [] } := by
  simp [me, h]

theorem me_requests_of_token (fetch : Transport) (localStorage : Storage) (t : String)
    (hget : localStorage.getItem "token" = some t) (hne : t ≠ "") :
    (me fetch localStorage).requests = [meRequest t] := by
  unfold me
  simp only [hget, isFalsy, hne, decide_False, templateText]
  simp only [Bool.false_eq_true, if_false]
  split
  · rfl
  · split
    · split <;> rfl
    · rfl

theorem me_of_ok (fetch : Transport) (localStorage : Storage) (t : String) (res : Response)
    (hget : localStorage.getItem "token" = some t) (hne : t ≠ "")
    (hfetch : fetch (meRequest t) = .ok res)
    (h2xx : 200 ≤ res.status ∧ res.status ≤ 299) :
    me fetch localStorage
      = { result := res.json, store := localStorage, requests := [meRequest t] } := by
  have hok : res.ok = true := (ok_eq_true_iff res).2 h2xx
  simp [me, hget, isFalsy, hne, templateText, hfetch, hok]

theorem me_of_not_ok (fetch : Transport) (localStorage : Storage) (t : String)
    (res : Response) (b : String)
    (hget : localStorage.getItem "token" = some t) (hne : t ≠ "")
    (hfetch : fetch (meRequest t) = .ok res)
    (hnot : ¬ (200 ≤ res.status ∧ res.status ≤ 299))
    (htext : res.text = .ok b) :
    me fetch localStorage
      = { result := .error (authFailedError res.status b),
          store := localStorage, requests := [meRequest t] } := by
  have hok : res.ok = false := by
    cases h : res.ok
    · rfl
    · exact absurd ((ok_eq_true_iff res).1 h) hnot
  simp [me, hget, isFalsy, hne, templateText, hfetch, hok, htext]

theorem occurs_end (a part : String) : Occurs part (a ++ part) := by
  refine ⟨a.data, [], ?_⟩
  simp [String.data_append]

theorem isFalsy_eq_true_iff (v : Option String) :
    isFalsy v = true ↔ v = none ∨ v = some "" := by
  cases v <;> simp [isFalsy]

/-! ## The claims -/

/-- C1: when the login endpoint answers with a 2xx status and a parsed payload whose
`access_token` member is a string `t`, then for every prior store and every username and
password `login` resolves to that payload unchanged, and the store afterwards is the prior
store with `t` set under the key `token`: that key holds exactly `t`, whatever it held
before, and every other key reads as before. -/
theorem login_success_stores_access_token (fetch : Transport) (username password : String)
    (localStorage : Storage) (res : Response) (data : Json) (t : String)
    (hfetch : fetch (loginRequest username password) = .ok res)
    (h2xx : 200 ≤ res.status ∧ res.status ≤ 299)
    (hjson : res.json = .ok data)
    (htok : accessTokenOf data = .ok (some (.str t))) :
    (login fetch username password localStorage).result = .ok data
    ∧ (login fetch username password localStorage).store = localStorage.setItem "token" t
    ∧ (login fetch username password localStorage).store.getItem "token" = some t
    ∧ ∀ key : String, key ≠ "token" →
        (login fetch username password localStorage).store.getItem key
          = localStorage.getItem key := by
  rw [login_of_ok fetch username password localStorage res data _ t hfetch h2xx hjson htok rfl]
  refine ⟨rfl, rfl, ?_, ?_⟩
  · exact getItem_setItem_same localStorage "token" t
  · intro key hne
    exact getItem_setItem_other localStorage "token" t key hne

/-- Witness of C1: the stub API accepts `alice`/`pw1` while the store holds an old token. -/
theorem login_success_stores_access_token_witness :
    (login stubApi "alice" "pw1" staleStore).result = .ok alicePayload
    ∧ (login stubApi "alice" "pw1" staleStore).store = staleStore.setItem "token" "abc123"
    ∧ (login stubApi "alice" "pw1" staleStore).store.getItem "token" = some "abc123"
    ∧ ∀ key : String, key ≠ "token" →
        (login stubApi "alice" "pw1" staleStore).store.getItem key = staleStore.getItem key :=
  login_success_stores_access_token stubApi "alice" "pw1" staleStore
    { status := 200,
      text := .ok "\x7b\"access_token\":\"abc123\",\"token_type\":\"bearer\"\x7d",
      json := .ok alicePayload }
    alicePayload "abc123" rfl (by decide) rfl rfl

/-- C2: when the login endpoint answers with a status `s` outside 200..299 and body text
`b`, then for every prior store `login` throws the error of its failure branch (the
`AuthenticationError` of the specification, in the code an `Error` with message
`login failed: s b`), whose message contains the decimal numeral of `s` and the text `b`
verbatim; no payload is returned and the store is exactly the prior store. -/
theorem login_failure_keeps_store (fetch : Transport) (username password : String)
    (localStorage : Storage) (res : Response) (b : String)
    (hfetch : fetch (loginRequest username password) = .ok res)
    (hnot : ¬ (200 ≤ res.status ∧ res.status ≤ 299))
    (htext : res.text = .ok b) :
    (login fetch username password localStorage).result
        = .error (newError ("login failed: " ++ toString res.status ++ " " ++ b))
    ∧ Occurs (toString res.status) ("login failed: " ++ toString res.status ++ " " ++ b)
    ∧ Occurs b ("login failed: " ++ toString res.status ++ " " ++ b)
    ∧ (∀ payload : Json, (login fetch username password localStorage).result ≠ .ok payload)
    ∧ (login fetch username password localStorage).store = localStorage := by
  rw [login_of_not_ok fetch username password localStorage res b hfetch hnot htext]
  refine ⟨rfl, ?_, ?_, ?_, rfl⟩
  · have h := occurs_mid "login failed: " (toString res.status) (" " ++ b)
    simpa [String.append_assoc] using h
  · exact occurs_end ("login failed: " ++ toString res.status ++ " ") b
  · intro payload h
    cases h

/-- Witness of C2: status 401 with body `bad credentials`, on the empty store. -/
theorem login_failure_keeps_store_witness :
    (login stubApi "alice" "wrong" emptyStore).result
        = .error (newError "login failed: 401 bad credentials")
    ∧ Occurs "401" "login failed: 401 bad credentials"
    ∧ Occurs "bad credentials" "login failed: 401 bad credentials"
    ∧ (∀ payload : Json, (login stubApi "alice" "wrong" emptyStore).result ≠ .ok payload)
    ∧ (login stubApi "alice" "wrong" emptyStore).store = emptyStore :=
  login_failure_keeps_store stubApi "alice" "wrong" emptyStore
    { status := 401, text := .ok "bad credentials", json := .error notJsonError }
    "bad credentials" rfl (by decide) rfl

/-- C3: when the store has no value under `token`, `me` throws the error of its guard
(the `NotAuthenticatedError` of the specification, in the code an `Error` with message
`no token, please login`) and the list of requests it issued is empty, for every stub
transport; the store is left as it was. -/
theorem me_without_credential (fetch : Transport) (localStorage : Storage)
    (habsent : localStorage.getItem "token" = none) :
    (me fetch localStorage).result = .error (newError "no token, please login")
    ∧ (me fetch localStorage).requests = []
    ∧ (me fetch localStorage).store = localStorage := by
  rw [me_of_falsy fetch localStorage (by simp [habsent, isFalsy])]
  exact ⟨rfl, rfl, rfl⟩

/-- Witness of C3: the empty store, against the stub API. -/
theorem me_without_credential_witness :
    (me stubApi emptyStore).result = .error (newError "no token, please login")
    ∧ (me stubApi emptyStore).requests = []
    ∧ (me stubApi emptyStore).store = emptyStore :=
  me_without_credential stubApi emptyStore (by decide)

/-- Counterexample to C4 as stated: the store holds the string `""` under `token` and the
profile endpoint answers 200 with a JSON body, yet `me` issues no request at all and throws
the error of its guard instead of resolving to the body. -/
theorem me_blank_credential_issues_no_request :
    blankTokenStore.getItem "token" = some ""
    ∧ (∃ res : Response, stubAlwaysProfile (meRequest "") = .ok res
        ∧ res.status = 200 ∧ res.json = .ok aliceProfile)
    ∧ (me stubAlwaysProfile blankTokenStore).requests = []
    ∧ (me stubAlwaysProfile blankTokenStore).result
        = .error (newError "no token, please login") :=
  ⟨rfl, ⟨_, rfl, rfl, rfl⟩, rfl, rfl⟩

/-- C4 (amended): for every store that holds a non-empty string `t` under `token` and
every stub transport whose profile endpoint answers with a 2xx status and JSON body `j`,
`me` issues exactly one request, to `https://celltrail-api.onrender.com/api/auth/me`, with no
method or body given and the single header `Authorization` set to `Bearer ` followed by `t`
as read from the store, and resolves to `j` unmodified; the store is left as it was. -/
theorem me_sends_bearer_header (fetch : Transport) (localStorage : Storage) (t : String)
    (res : Response) (j : Json)
    (hget : localStorage.getItem "token" = some t) (hne : t ≠ "")
    (hfetch : fetch (meRequest t) = .ok res)
    (h2xx : 200 ≤ res.status ∧ res.status ≤ 299)
    (hjson : res.json = .ok j) :
    (me fetch localStorage).requests
        = [{ url := "https://celltrail-api.onrender.com/api/auth/me",
             init := { method := none,
                       headers := [("Authorization", "Bearer " ++ t)],
                       body := none } }]
    ∧ (me fetch localStorage).result = .ok j
    ∧ (me fetch localStorage).store = localStorage := by
  rw [me_of_ok fetch localStorage t res hget hne hfetch h2xx]
  exact ⟨rfl, hjson, rfl⟩

/-- Witness of C4 (amended): the store holds `abc123` and the stub API serves the profile. -/
theorem me_sends_bearer_header_witness :
    (me stubApi aliceStore).requests
        = [{ url := "https://celltrail-api.onrender.com/api/auth/me",
             init := { method := none,
                       headers := [("Authorization", "Bearer abc123")],
                       body := none } }]
    ∧ (me stubApi aliceStore).result = .ok aliceProfile
    ∧ (me stubApi aliceStore).store = aliceStore :=
  me_sends_bearer_header stubApi aliceStore "abc123"
    { status := 200, text := .ok "\x7b\"username\":\"alice\"\x7d", json := .ok aliceProfile }
    aliceProfile rfl (by decide) rfl (by decide) rfl

/-- C5: for every prior store, with or without a credential, and every stub transport,
`logout` completes normally and a following `me` throws the error of its guard (the
`NotAuthenticatedError` of the specification) without issuing any request. -/
theorem logout_then_me_not_authenticated (fetch : Transport) (localStorage : Storage) :
    (logout localStorage).result = .ok ()
    ∧ (me fetch (logout localStorage).store).result
        = .error (newError "no token, please login")
    ∧ (me fetch (logout localStorage).store).requests = [] := by
  have hgone : (logout localStorage).store.getItem "token" = none :=
    getItem_removeItem_same localStorage "token"
  rw [me_of_falsy fetch (logout localStorage).store (by simp [hgone, isFalsy])]
  exact ⟨rfl, rfl, rfl⟩

/-- C6: `logout` is total and idempotent on the store. For every prior store it returns
normally, the store afterwards has no value under `token` and reads as before under every
other key, a second `logout` returns normally and yields the same store as the first, a
store without a value under `token` is returned unchanged, and no request is issued. -/
theorem logout_total_idempotent (localStorage : Storage) :
    (logout localStorage).result = .ok ()
    ∧ (logout localStorage).store.getItem "token" = none
    ∧ (∀ key : String, key ≠ "token" →
        (logout localStorage).store.getItem key = localStorage.getItem key)
    ∧ (logout (logout localStorage).store).result = .ok ()
    ∧ (logout (logout localStorage).store).store = (logout localStorage).store
    ∧ (localStorage.getItem "token" = none → (logout localStorage).store = localStorage)
    ∧ (logout localStorage).requests = []
    ∧ (logout (logout localStorage).store).requests = [] := by
  refine ⟨rfl, ?_, ?_, rfl, ?_, ?_, rfl, rfl⟩
  · exact getItem_removeItem_same localStorage "token"
  · intro key hne
    exact getItem_removeItem_other localStorage "token" key hne
  · exact removeItem_removeItem localStorage "token"
  · intro habsent
    exact removeItem_absent localStorage "token" habsent

/-- Counterexample to C7 as stated: the store holds the string `""` under `token` and the
profile endpoint answers 401 with body `expired`, yet `me` throws the error of its guard,
whose message carries neither `401` nor `expired`, and issues no request. -/
theorem me_blank_credential_hides_status :
    blankTokenStore.getItem "token" = some ""
    ∧ (∃ res : Response, stubAlways401 (meRequest "") = .ok res
        ∧ res.status = 401 ∧ res.text = .ok "expired")
    ∧ (me stubAlways401 blankTokenStore).result
        = .error (newError "no token, please login")
    ∧ ¬ Occurs "401" "no token, please login"
    ∧ ¬ Occurs "expired" "no token, please login"
    ∧ (me stubAlways401 blankTokenStore).requests = [] :=
  ⟨rfl, ⟨_, rfl, rfl, rfl⟩, rfl, by decide, by decide, rfl⟩

/-- C7 (amended): for every store that holds a non-empty string under `token` and every
stub transport whose profile endpoint answers with a status `s` outside 200..299 and body
text `b`, `me` throws the error of its failure branch (the `AuthenticationError` of the
specification, in the code an `Error` with message `auth failed: s b`), whose message
carries the decimal numeral of `s` and the text `b` verbatim, and the store after the call
equals the store before it. -/
theorem me_failure_keeps_credential (fetch : Transport) (localStorage : Storage)
    (t : String) (res : Response) (b : String)
    (hget : localStorage.getItem "token" = some t) (hne : t ≠ "")
    (hfetch : fetch (meRequest t) = .ok res)
    (hnot : ¬ (200 ≤ res.status ∧ res.status ≤ 299))
    (htext : res.text = .ok b) :
    (me fetch localStorage).result
        = .error (newError ("auth failed: " ++ toString res.status ++ " " ++ b))
    ∧ Occurs (toString res.status) ("auth failed: " ++ toString res.status ++ " " ++ b)
    ∧ Occurs b ("auth failed: " ++ toString res.status ++ " " ++ b)
    ∧ (me fetch localStorage).store = localStorage
    ∧ (me fetch localStorage).store.getItem "token" = some t := by
  rw [me_of_not_ok fetch localStorage t res b hget hne hfetch hnot htext]
  refine ⟨rfl, ?_, ?_, rfl, hget⟩
  · have h := occurs_mid "auth failed: " (toString res.status) (" " ++ b)
    simpa [String.append_assoc] using h
  · exact occurs_end ("auth failed: " ++ toString res.status ++ " ") b

/-- Witness of C7 (amended): the store holds `abc123` and the endpoint answers 401. -/
theorem me_failure_keeps_credential_witness :
    (me stubAlways401 aliceStore).result = .error (newError "auth failed: 401 expired")
    ∧ Occurs "401" "auth failed: 401 expired"
    ∧ Occurs "expired" "auth failed: 401 expired"
    ∧ (me stubAlways401 aliceStore).store = aliceStore
    ∧ (me stubAlways401 aliceStore).store.getItem "token" = some "abc123" :=
  me_failure_keeps_credential stubAlways401 aliceStore "abc123"
    { status := 401, text := .ok "expired", json := .error notJsonError }
    "expired" rfl (by decide) rfl (by decide) rfl

/-- C8: for every username and password, every prior store and every transport, `login`
issues exactly one request: a `POST` to `https://celltrail-api.onrender.com/api/auth/login`
with the single header `Content-Type: application/x-www-form-urlencoded` and a
`URLSearchParams` body of exactly the two entries `username` and `password`, in that order,
carrying the given strings. No pair is rejected before the request is issued. -/
theorem login_issues_one_form_post (fetch : Transport) (username password : String)
    (localStorage : Storage) :
    (login fetch username password localStorage).requests
      = [{ url := "https://celltrail-api.onrender.com/api/auth/login",
           init := { method := some "POST",
                     headers := [("Content-Type", "application/x-www-form-urlencoded")],
                     body := some (Body.urlSearchParams
                       [("username", username), ("password", password)]) } }] := by
  rw [login_requests fetch username password localStorage]
  rfl

/-- C9: the guard of `me` is a falsiness test. For every stub transport and store, `me`
throws the `no token, please login` error having issued no request if and only if the store
has no value under `token` or that value is the empty string; for every non-empty stored
string it issues the profile request with that string as bearer; and a store that holds
the value `""` is treated as not authenticated. -/
theorem me_guard_is_falsiness (fetch : Transport) (localStorage : Storage) :
    (((me fetch localStorage).result = .error (newError "no token, please login")
        ∧ (me fetch localStorage).requests = [])
      ↔ (localStorage.getItem "token" = none ∨ localStorage.getItem "token" = some ""))
    ∧ (∀ t : String, localStorage.getItem "token" = some t → t ≠ "" →
        (me fetch localStorage).requests = [meRequest t])
    ∧ (localStorage.getItem "token" = some "" →
        (me fetch localStorage).result = .error (newError "no token, please login")
        ∧ (me fetch localStorage).requests = []) := by
  refine ⟨⟨?_, ?_⟩, ?_, ?_⟩
  · rintro ⟨-, hreq⟩
    cases hget : localStorage.getItem "token" with
    | none => exact Or.inl rfl
    | some t =>
      by_cases ht : t = ""
      · subst ht
        exact Or.inr rfl
      · rw [me_requests_of_token fetch localStorage t hget ht] at hreq
        cases hreq
  · intro h
    rw [me_of_falsy fetch localStorage ((isFalsy_eq_true_iff _).2 h)]
    exact ⟨rfl, rfl⟩
  · intro t hget hne
    exact me_requests_of_token fetch localStorage t hget hne
  · intro hget
    rw [me_of_falsy fetch localStorage ((isFalsy_eq_true_iff _).2 (Or.inr hget))]
    exact ⟨rfl, rfl⟩

/-- Counterexample to C10 as stated: the login endpoint answers 200 with the parsed payload
`null`, a payload with no `access_token` field, yet `login` fails: reading the property of
`null` throws a `TypeError`, nothing is returned and the old token stays in the store. -/
theorem login_null_payload_fails :
    (∃ res : Response, stubNullPayload (loginRequest "alice" "pw1") = .ok res
        ∧ res.status = 200 ∧ res.json = .ok .null)
    ∧ (login stubNullPayload "alice" "pw1" staleStore).result
        = .error { name := "TypeError",
                   message := "Cannot read properties of null (reading \x27access_token\x27)" }
    ∧ (login stubNullPayload "alice" "pw1" staleStore).store = staleStore
    ∧ (login stubNullPayload "alice" "pw1" staleStore).store.getItem "token" = some "old" :=
  ⟨⟨_, rfl, rfl, rfl⟩, rfl, rfl, rfl⟩

/-- C10 (amended): when the login endpoint answers with a 2xx status and a parsed payload
other than `null` that has no `access_token` member, `login` does not fail: it resolves to
the payload and sets `token` to the text `undefined`, replacing any prior value. A following
`me`, against any transport, finds a non-empty credential: it does not leave through its
guard but issues the profile request with the header `Authorization: Bearer undefined`, and
resolves to the body whenever that request is answered with a 2xx status and a JSON body. -/
theorem login_without_access_token_stores_undefined (fetch : Transport)
    (username password : String) (localStorage : Storage) (res : Response) (data : Json)
    (hfetch : fetch (loginRequest username password) = .ok res)
    (h2xx : 200 ≤ res.status ∧ res.status ≤ 299)
    (hjson : res.json = .ok data)
    (hnotnull : data ≠ .null)
    (hmissing : ∀ members : List (String × Json),
      data = .obj members → lookupMember "access_token" members = none) :
    (login fetch username password localStorage).result = .ok data
    ∧ (login fetch username password localStorage).store
        = localStorage.setItem "token" "undefined"
    ∧ (login fetch username password localStorage).store.getItem "token" = some "undefined"
    ∧ ∀ next : Transport,
        isFalsy ((login fetch username password localStorage).store.getItem "token") = false
        ∧ (me next (login fetch username password localStorage).store).requests
          = [{ url := "https://celltrail-api.onrender.com/api/auth/me",
               init := { method := none,
                         headers := [("Authorization", "Bearer undefined")],
                         body := none } }]
        ∧ ∀ (answer : Response) (j : Json),
            next (meRequest "undefined") = .ok answer →
            200 ≤ answer.status ∧ answer.status ≤ 299 →
            answer.json = .ok j →
            (me next (login fetch username password localStorage).store).result = .ok j := by
  rw [login_of_ok fetch username password localStorage res data none "undefined" hfetch h2xx
    hjson (accessTokenOf_missing data hnotnull hmissing) rfl]
  have hget : (localStorage.setItem "token" "undefined").getItem "token" = some "undefined" :=
    getItem_setItem_same localStorage "token" "undefined"
  have hne : ("undefined" : String) ≠ "" := by decide
  refine ⟨rfl, rfl, hget, ?_⟩
  intro next
  refine ⟨?_, ?_, ?_⟩
  · show isFalsy ((localStorage.setItem "token" "undefined").getItem "token") = false
    rw [hget]
    rfl
  · exact me_requests_of_token next _ "undefined" hget hne
  · intro answer j hnext hanswer hbody
    show (me next (localStorage.setItem "token" "undefined")).result = .ok j
    rw [me_of_ok next _ "undefined" answer hget hne hnext hanswer]
    exact hbody

/-- Witness of C10 (amended): the stub answers 200 with an object that has only
`token_type`, while the store holds an old token. -/
theorem login_without_access_token_stores_undefined_witness :
    (login stubWithoutToken "alice" "pw1" staleStore).result
        = .ok (.obj [("token_type", .str "bearer")])
    ∧ (login stubWithoutToken "alice" "pw1" staleStore).store
        = staleStore.setItem "token" "undefined"
    ∧ (login stubWithoutToken "alice" "pw1" staleStore).store.getItem "token"
        = some "undefined"
    ∧ ∀ next : Transport,
        isFalsy ((login stubWithoutToken "alice" "pw1" staleStore).store.getItem "token")
          = false
        ∧ (me next (login stubWithoutToken "alice" "pw1" staleStore).store).requests
          = [{ url := "https://celltrail-api.onrender.com/api/auth/me",
               init := { method := none,
                         headers := [("Authorization", "Bearer undefined")],
                         body := none } }]
        ∧ ∀ (answer : Response) (j : Json),
            next (meRequest "undefined") = .ok answer →
            200 ≤ answer.status ∧ answer.status ≤ 299 →
            answer.json = .ok j →
            (me next (login stubWithoutToken "alice" "pw1" staleStore).store).result
              = .ok j :=
  login_without_access_token_stores_undefined stubWithoutToken "alice" "pw1" staleStore
    { status := 200, text := .ok "\x7b\"token_type\":\"bearer\"\x7d",
      json := .ok (.obj [("token_type", .str "bearer")]) }
    (.obj [("token_type", .str "bearer")]) rfl (by decide) rfl
    (by intro h; cases h)
    (by intro members h; cases h; rfl)

end CellTrail
